import Mathlib

/-!
Shallow embedding of the AssistedSystemMonitor repository
(`src/FastMCPServer.py`, `src/src/server.py`, `src/LLMClient.py`).

The tool functions wrap calls into the `psutil` library.  Each psutil call
either returns data or raises one of a small set of exception types; we pass
the outcome of every external call in explicitly as a value of `Except PyExc α`
(the "world"), and the embedded functions reproduce the Python control flow
(`try`/`except` dispatch on the exception type) over those outcomes.
`psutil.ZombieProcess` is a subclass of `psutil.NoSuchProcess`, so it is
subsumed by the `noSuchProcess` constructor wherever the source catches the
superclass.  Timestamps (`datetime.now().isoformat()`) are passed in as an
opaque string parameter `ts`.  Python floats are modelled as exact rationals.
-/

/-- The psutil / Python exception types the source distinguishes. -/
inductive PyExc where
  | noSuchProcess
  | accessDenied
  | timeoutExpired
  | other (msg : String)
  deriving DecidableEq, Repr

/-- Python `str(e)` on a caught exception, used where the source stores the
exception text in an error record.  The exact rendering for the typed psutil
exceptions is environment-dependent; only `other` carries a literal text. -/
def PyExc.str : PyExc → String
  | .noSuchProcess => "psutil.NoSuchProcess process no longer exists"
  | .accessDenied => "psutil.AccessDenied"
  | .timeoutExpired => "psutil.TimeoutExpired"
  | .other m => m

/-- JSON-serializable scalar values appearing in tool result records. -/
inductive JVal where
  | s (v : String)
  | i (v : ℤ)
  | q (v : ℚ)
  | b (v : Bool)
  deriving DecidableEq, Repr

/-- A flat tool-result record: ordered key/value pairs, as the Python dicts
built by the tools are (insertion-ordered). -/
abbrev JObj := List (String × JVal)

/-- Python `round(x, 2)`.  Python rounds half to even on binary floats; the
claims never depend on the tie direction, so nearest-integer rounding on exact
rationals is used. -/
def round2 (x : ℚ) : ℚ := (round (x * 100) : ℤ) / 100

/-- Helper `bytes_to_mb` from both server files: `round(bytes_value / (1024 * 1024), 2)`. -/
def bytes_to_mb (bytes_value : ℕ) : ℚ := round2 ((bytes_value : ℚ) / (1024 * 1024))

/-- Helper `bytes_to_gb` from both server files: `round(bytes_value / (1024 * 1024 * 1024), 2)`. -/
def bytes_to_gb (bytes_value : ℕ) : ℚ := round2 ((bytes_value : ℚ) / (1024 * 1024 * 1024))

/-- Python slice `xs[:k]` for an `int` bound `k`: a nonnegative bound takes the
first `k` elements, a negative bound drops the last `|k|` elements
(`stop = max(0, len(xs) + k)`). -/
def pySliceTo {α : Type} (xs : List α) (k : ℤ) : List α :=
  if 0 ≤ k then xs.take k.toNat else xs.take ((xs.length : ℤ) + k).toNat

/-- Whether `needle` occurs at the head of `hay`. -/
def leadsWith : List Char → List Char → Bool
  | [], _ => true
  | _ :: _, [] => false
  | a :: as, b :: bs => a = b && leadsWith as bs

/-- Python substring test `needle in hay` on strings (as char lists). -/
def pyInStr : List Char → List Char → Bool
  | needle, [] => needle.isEmpty
  | needle, c :: t => leadsWith needle (c :: t) || pyInStr needle t

/-- Python `s.lower()`, as a char list (ASCII case mapping, which covers the
process names the source compares). -/
def pyLower (s : String) : List Char := s.data.map Char.toLower

/-- Lexicographic `≤` on char lists: Python string comparison by code point,
as used by `list.sort(key=...)` on lowercased names. -/
def lexLe : List Char → List Char → Bool
  | [], _ => true
  | _ :: _, [] => false
  | a :: as, b :: bs => if a = b then lexLe as bs else decide (a < b)

/-- Python truthiness of an optional string: `None` and `""` are falsy. -/
def pyTruthyStr : Option String → Bool
  | none => false
  | some s => !s.isEmpty

/-- Python `a or b` on optional strings. -/
def pyOr (a b : Option String) : Option String :=
  if pyTruthyStr a then a else b

/-- Outcome of `psutil.disk_usage(path)`: the named tuple on success. -/
structure DiskUsageStat where
  total : ℕ
  used : ℕ
  free : ℕ
  percent : ℚ
  deriving DecidableEq, Repr

/-- One process yielded by `psutil.process_iter([...])` together with the
outcome of sampling it inside the loop body.  `ok = false` models the body
raising one of the caught psutil exceptions (`NoSuchProcess`, `AccessDenied`,
`ZombieProcess`), which the source answers with `pass`/`continue`. -/
structure ProcSample where
  pid : ℤ
  name : String
  cpu : ℚ
  memory_percent : ℚ
  status : String
  username : String
  ok : Bool
  deriving DecidableEq, Repr

/-- Outcome of `psutil.Process(pid)` followed by the field reads done by
`get_process_info`: all snapshot fields, or the first exception raised. -/
structure ProcDetail where
  pid : ℤ
  name : String
  status : String
  cpu_percent : ℚ
  memory_percent : ℚ
  memory_rss : ℕ
  num_threads : ℤ
  username : String
  create_time : String
  cmdline : List String
  deriving DecidableEq, Repr

/-- World for `terminate_process`: outcome of `psutil.Process(pid)` plus
`proc.name()` (yielding the name), then `proc.terminate()`, then
`proc.wait(timeout=3)` (`.error .timeoutExpired` when the process is still
running after the 3-second bound), then `proc.kill()` (consulted only on the
timeout path). -/
structure TerminateWorld where
  acquire : Except PyExc String
  terminate : Except PyExc Unit
  wait : Except PyExc Unit
  kill : Except PyExc Unit

/-- World for `suspend_process` / `resume_process`: outcome of
`psutil.Process(pid)` plus `proc.name()`, then the suspend/resume signal. -/
structure SignalWorld where
  acquire : Except PyExc String
  signal : Except PyExc Unit

namespace FastMCPServer

/-- Embeds `get_disk_usage` from `src/FastMCPServer.py`.  The source has no
`try`/`except`: a psutil exception (e.g. `FileNotFoundError` on an invalid
path) propagates out of the function, modelled by returning `.error`. -/
def get_disk_usage (path : String) (w : Except PyExc DiskUsageStat) (ts : String) :
    Except PyExc JObj :=
  match w with
  | .error e => .error e
  | .ok disk => .ok [
      ("path", .s path),
      ("total_gb", .q (bytes_to_gb disk.total)),
      ("used_gb", .q (bytes_to_gb disk.used)),
      ("free_gb", .q (bytes_to_gb disk.free)),
      ("usage_percent", .q disk.percent),
      ("timestamp", .s ts)]

/-- One entry of the list built by `get_top_processes`' collection loop. -/
structure ProcEntry where
  pid : ℤ
  name : String
  cpu_percent : ℚ
  memory_percent : ℚ
  status : String
  username : String
  deriving DecidableEq, Repr

/-- The collection loop of `get_top_processes`: keep every process whose
sampling succeeded, with `cpu_percent` and `memory_percent` rounded to two
decimals as the loop body does. -/
def collect (procs : List ProcSample) : List ProcEntry :=
  procs.filterMap fun p =>
    if p.ok then
      some { pid := p.pid, name := p.name, cpu_percent := round2 p.cpu,
             memory_percent := round2 p.memory_percent, status := p.status,
             username := p.username }
    else none

/-- Embeds `get_top_processes` from `src/FastMCPServer.py`: collect, then sort
descending by cpu or memory, or ascending by lowercased name, or leave in
enumeration order for any other key; finally Python-slice to `limit`.
Python `list.sort` is stable, as is `List.mergeSort`. -/
def get_top_processes (procs : List ProcSample) (limit : ℤ) (sort_by : String) :
    List ProcEntry :=
  let processes := collect procs
  let processes :=
    if sort_by = "cpu" then
      processes.mergeSort (fun a b => decide (b.cpu_percent ≤ a.cpu_percent))
    else if sort_by = "memory" then
      processes.mergeSort (fun a b => decide (b.memory_percent ≤ a.memory_percent))
    else if sort_by = "name" then
      processes.mergeSort (fun a b => lexLe (pyLower a.name) (pyLower b.name))
    else processes
  pySliceTo processes limit

/-- Embeds `get_process_info` from `src/FastMCPServer.py`: on success a full snapshot
record; `NoSuchProcess` and `AccessDenied` are caught and answered with a
single-field error record; any other exception propagates. -/
def get_process_info (pid : ℤ) (w : Except PyExc ProcDetail) (ts : String) :
    Except PyExc JObj :=
  match w with
  | .ok p => .ok [
      ("pid", .i p.pid),
      ("name", .s p.name),
      ("status", .s p.status),
      ("cpu_percent", .q p.cpu_percent),
      ("memory_percent", .q (round2 p.memory_percent)),
      ("memory_mb", .q (bytes_to_mb p.memory_rss)),
      ("num_threads", .i p.num_threads),
      ("username", .s p.username),
      ("create_time", .s p.create_time),
      ("cmdline", .s (String.intercalate " " (p.cmdline.take 3))),
      ("timestamp", .s ts)]
  | .error .noSuchProcess => .ok [("error", .s s!"Process with PID {pid} not found")]
  | .error .accessDenied => .ok [("error", .s s!"Access denied to process {pid}")]
  | .error e => .error e

/-- Output record of `search_process_by_name` (the prefetched `proc.info`
dict for the attrs requested, with rounded cpu/memory). -/
structure SearchEntry where
  pid : ℤ
  name : String
  cpu_percent : ℚ
  memory_percent : ℚ
  status : String
  deriving DecidableEq, Repr

/-- Builds the record `search_process_by_name` appends for a matching,
successfully sampled process. -/
def toSearchEntry (p : ProcSample) : SearchEntry :=
  { pid := p.pid, name := p.name, cpu_percent := round2 p.cpu,
    memory_percent := round2 p.memory_percent, status := p.status }

/-- Embeds `search_process_by_name` from `src/FastMCPServer.py`: keep every process
whose name contains the query case-insensitively; the cpu sampling inside the
`if` may raise (`ok = false`), in which case the process is silently skipped.
The function always returns a list, never an error record. -/
def search_process_by_name (procs : List ProcSample) (name : String) :
    List SearchEntry :=
  procs.filterMap fun p =>
    if pyInStr (pyLower name) (pyLower p.name) then
      if p.ok then some (toSearchEntry p) else none
    else none

/-- Embeds `terminate_process` from `src/FastMCPServer.py`.  The `try` body runs
acquire, terminate, wait in order; `NoSuchProcess`, `AccessDenied` and
`TimeoutExpired` are caught by type; on timeout, `proc.kill()` is attempted
under a catch-all.  Any other exception from the outer body propagates. -/
def terminate_process (pid : ℤ) (w : TerminateWorld) (ts : String) :
    Except PyExc JObj :=
  match (do let n ← w.acquire; let _ ← w.terminate; let _ ← w.wait; pure n :
      Except PyExc String) with
  | .ok proc_name => .ok [
      ("success", .b true),
      ("message", .s s!"Process {proc_name} (PID: {pid}) successfully terminated"),
      ("timestamp", .s ts)]
  | .error .noSuchProcess =>
      .ok [("success", .b false), ("error", .s s!"Process with PID {pid} not found")]
  | .error .accessDenied =>
      .ok [("success", .b false),
           ("error", .s s!"Access denied. Cannot terminate process {pid}")]
  | .error .timeoutExpired =>
      match w.kill with
      | .ok _ => .ok [
          ("success", .b true),
          ("message", .s s!"Process {pid} forcefully killed"),
          ("timestamp", .s ts)]
      | .error e => .ok [("success", .b false), ("error", .s e.str)]
  | .error e => .error e

/-- Embeds `suspend_process` from `src/FastMCPServer.py`. -/
def suspend_process (pid : ℤ) (w : SignalWorld) (ts : String) :
    Except PyExc JObj :=
  match (do let n ← w.acquire; let _ ← w.signal; pure n : Except PyExc String) with
  | .ok proc_name => .ok [
      ("success", .b true),
      ("message", .s s!"Process {proc_name} (PID: {pid}) suspended"),
      ("timestamp", .s ts)]
  | .error .noSuchProcess =>
      .ok [("success", .b false), ("error", .s s!"Process with PID {pid} not found")]
  | .error .accessDenied =>
      .ok [("success", .b false), ("error", .s s!"Access denied to process {pid}")]
  | .error e => .error e

/-- Embeds `resume_process` from `src/FastMCPServer.py`. -/
def resume_process (pid : ℤ) (w : SignalWorld) (ts : String) :
    Except PyExc JObj :=
  match (do let n ← w.acquire; let _ ← w.signal; pure n : Except PyExc String) with
  | .ok proc_name => .ok [
      ("success", .b true),
      ("message", .s s!"Process {proc_name} (PID: {pid}) resumed"),
      ("timestamp", .s ts)]
  | .error .noSuchProcess =>
      .ok [("success", .b false), ("error", .s s!"Process with PID {pid} not found")]
  | .error .accessDenied =>
      .ok [("success", .b false), ("error", .s s!"Access denied to process {pid}")]
  | .error e => .error e

end FastMCPServer

namespace ServerPy

/-- Embeds `get_disk_info` from `src/src/server.py`: the whole body is wrapped in
`try`/`except Exception`, so every failure becomes an error record.  The path
is hard-coded to the root; the psutil outcome is passed in as `w`. -/
def get_disk_info (w : Except PyExc DiskUsageStat) : JObj :=
  match w with
  | .ok disk => [
      ("total_gb", .q (round2 ((disk.total : ℚ) / 1024 ^ 3))),
      ("used_gb", .q (round2 ((disk.used : ℚ) / 1024 ^ 3))),
      ("free_gb", .q (round2 ((disk.free : ℚ) / 1024 ^ 3))),
      ("percent", .q disk.percent)]
  | .error e => [("error", .s e.str)]

/-- One process yielded by `psutil.process_iter` in `server.py`'s
`get_top_processes`: the prefetched `proc.info` values (cpu and memory may be
`None` on a first sample) and whether reading them raised a caught psutil
exception (`ok = false` models the `continue` branch). -/
structure RawProc where
  pid : ℤ
  name : String
  cpu_percent : Option ℚ
  memory_percent : Option ℚ
  ok : Bool
  deriving DecidableEq, Repr

/-- Entry of the process list built by `server.py`'s `get_top_processes`. -/
structure PEntry where
  pid : ℤ
  name : String
  cpu_percent : ℚ
  memory_percent : ℚ
  deriving DecidableEq, Repr

/-- Result record of `server.py`'s `get_top_processes`. -/
structure TopProcResult where
  top_processes : List PEntry
  total_count : ℕ
  sorted_by : String
  deriving DecidableEq, Repr

/-- The collection loop of `server.py`'s `get_top_processes` (with `x or 0`
defaulting of `None` samples). -/
def collect (procs : List RawProc) : List PEntry :=
  procs.filterMap fun p =>
    if p.ok then
      some { pid := p.pid, name := p.name, cpu_percent := p.cpu_percent.getD 0,
             memory_percent := round2 (p.memory_percent.getD 0) }
    else none

/-- Embeds `get_top_processes` from `src/src/server.py`: collect, sort descending by
memory when asked, by cpu for every other key, slice to `limit`, and report
the pre-slice count.  The outer `except Exception` is unreachable for the
modelled outcomes. -/
def get_top_processes (procs : List RawProc) (limit : ℤ) (sort_by : String) :
    TopProcResult :=
  let processes := collect procs
  let processes :=
    if sort_by = "memory" then
      processes.mergeSort (fun a b => decide (b.memory_percent ≤ a.memory_percent))
    else
      processes.mergeSort (fun a b => decide (b.cpu_percent ≤ a.cpu_percent))
  { top_processes := pySliceTo processes limit,
    total_count := processes.length,
    sorted_by := sort_by }

/-- Embeds `get_process_info` from `src/src/server.py`.  Identical to the
`FastMCPServer.py` variant except that the command line is the empty string
when `proc.cmdline()` is empty (which `" ".join` of an empty slice also is). -/
def get_process_info (pid : ℤ) (w : Except PyExc ProcDetail) (ts : String) :
    Except PyExc JObj :=
  match w with
  | .ok p => .ok [
      ("pid", .i p.pid),
      ("name", .s p.name),
      ("status", .s p.status),
      ("cpu_percent", .q p.cpu_percent),
      ("memory_percent", .q (round2 p.memory_percent)),
      ("memory_mb", .q (bytes_to_mb p.memory_rss)),
      ("num_threads", .i p.num_threads),
      ("username", .s p.username),
      ("create_time", .s p.create_time),
      ("cmdline", .s (if p.cmdline.isEmpty then ""
                      else String.intercalate " " (p.cmdline.take 3))),
      ("timestamp", .s ts)]
  | .error .noSuchProcess => .ok [("error", .s s!"Process with PID {pid} not found")]
  | .error .accessDenied => .ok [("error", .s s!"Access denied to process {pid}")]
  | .error e => .error e

/-- Embeds `search_process_by_name` from `src/src/server.py` (same code as the
`FastMCPServer.py` variant). -/
def search_process_by_name (procs : List ProcSample) (name : String) :
    List FastMCPServer.SearchEntry :=
  procs.filterMap fun p =>
    if pyInStr (pyLower name) (pyLower p.name) then
      if p.ok then some (FastMCPServer.toSearchEntry p) else none
    else none

/-- Embeds `terminate_process` from `src/src/server.py` (same code as the
`FastMCPServer.py` variant). -/
def terminate_process (pid : ℤ) (w : TerminateWorld) (ts : String) :
    Except PyExc JObj :=
  match (do let n ← w.acquire; let _ ← w.terminate; let _ ← w.wait; pure n :
      Except PyExc String) with
  | .ok proc_name => .ok [
      ("success", .b true),
      ("message", .s s!"Process {proc_name} (PID: {pid}) successfully terminated"),
      ("timestamp", .s ts)]
  | .error .noSuchProcess =>
      .ok [("success", .b false), ("error", .s s!"Process with PID {pid} not found")]
  | .error .accessDenied =>
      .ok [("success", .b false),
           ("error", .s s!"Access denied. Cannot terminate process {pid}")]
  | .error .timeoutExpired =>
      match w.kill with
      | .ok _ => .ok [
          ("success", .b true),
          ("message", .s s!"Process {pid} forcefully killed"),
          ("timestamp", .s ts)]
      | .error e => .ok [("success", .b false), ("error", .s e.str)]
  | .error e => .error e

/-- Embeds `suspend_process` from `src/src/server.py` (same code as the
`FastMCPServer.py` variant). -/
def suspend_process (pid : ℤ) (w : SignalWorld) (ts : String) :
    Except PyExc JObj :=
  match (do let n ← w.acquire; let _ ← w.signal; pure n : Except PyExc String) with
  | .ok proc_name => .ok [
      ("success", .b true),
      ("message", .s s!"Process {proc_name} (PID: {pid}) suspended"),
      ("timestamp", .s ts)]
  | .error .noSuchProcess =>
      .ok [("success", .b false), ("error", .s s!"Process with PID {pid} not found")]
  | .error .accessDenied =>
      .ok [("success", .b false), ("error", .s s!"Access denied to process {pid}")]
  | .error e => .error e

/-- Embeds `resume_process` from `src/src/server.py` (same code as the
`FastMCPServer.py` variant). -/
def resume_process (pid : ℤ) (w : SignalWorld) (ts : String) :
    Except PyExc JObj :=
  match (do let n ← w.acquire; let _ ← w.signal; pure n : Except PyExc String) with
  | .ok proc_name => .ok [
      ("success", .b true),
      ("message", .s s!"Process {proc_name} (PID: {pid}) resumed"),
      ("timestamp", .s ts)]
  | .error .noSuchProcess =>
      .ok [("success", .b false), ("error", .s s!"Process with PID {pid} not found")]
  | .error .accessDenied =>
      .ok [("success", .b false), ("error", .s s!"Access denied to process {pid}")]
  | .error e => .error e

end ServerPy

namespace LLMClient

/-- One tool call emitted by the model, as stored in the transcript by
`chat_async` (`id`, function name, raw JSON arguments string). -/
structure ToolCallRec where
  id : String
  function_name : String
  function_arguments : String
  deriving DecidableEq, Repr

/-- A transcript message: role, content, and for assistant tool-call turns the
emitted calls, for tool-response messages the paired call id and tool name. -/
structure Message where
  role : String
  content : Option String
  tool_calls : List ToolCallRec := []
  tool_call_id : Option String := none
  name : Option String := none
  deriving DecidableEq, Repr

/-- A chat-completions request as issued by `chat_async`: model identifier,
message transcript, and the `tools` parameter (`none` when the parameter is
omitted, as in the final synthesis request). -/
structure CompletionRequest where
  model : String
  messages : List Message
  tools : Option (List String)
  deriving DecidableEq, Repr

/-- The part of a completion response `chat_async` reads: the assistant
content and the (possibly empty) list of tool calls. -/
structure ModelTurn where
  content : Option String
  tool_calls : List ToolCallRec
  deriving DecidableEq, Repr

/-- The state of a `SystemMonitorLLM` instance after `__init__` (the OpenAI
client object and MCP session are external; `available_tools` holds the
advertised tool names). -/
structure SystemMonitorLLM where
  api_key : String
  conversation_history : List Message
  server_path : String
  available_tools : List String
  deriving DecidableEq, Repr

/-- The message of the `ValueError` raised by `__init__` without a key. -/
def apiKeyError : String :=
  "❌ OpenAI API key not found. Please set the OPENAI_API_KEY environment variable."

/-- Embeds `SystemMonitorLLM.__init__` from `src/LLMClient.py`: resolve the key as
`api_key or os.getenv("OPENAI_API_KEY")`; if the result is falsy raise
`ValueError` (modelled as `.error`, before any client object is created),
otherwise construct the state with an empty transcript. -/
def SystemMonitorLLM.init (api_key : Option String) (env : String → Option String)
    (server_path : String := "FastMCPServer.py") : Except String SystemMonitorLLM :=
  let key := pyOr api_key (env "OPENAI_API_KEY")
  if pyTruthyStr key then
    .ok { api_key := key.getD "", conversation_history := [],
          server_path := server_path, available_tools := [] }
  else
    .error apiKeyError

/-- The fixed system prompt `chat_async` seeds an empty transcript with. -/
def systemPrompt : String :=
  "You are a system monitoring assistant. You help users ask questions about their operating system and manage system resources.\n\nYour tasks:\n1. Understand user questions and call the appropriate tools\n2. Explain technical data in a clear and natural language\n3. Warn users before critical operations (such as terminating processes)\n4. Present numerical values and percentages clearly\n5. Provide recommendations and solutions when necessary\n\nRules:\n- Always ask for confirmation before dangerous actions like process termination\n- Be extra careful with critical system processes (pid < 1000)\n- Present data clearly and in an organized way\n- Be user-friendly and helpful\n- Always respond in English"

/-- The seeded system message. -/
def system_message : Message := { role := "system", content := some systemPrompt }

/-- The transcript at the moment of the first completion request of a
`chat_async` turn: seed the system message when the history is empty, then
append the user message. -/
def seededHistory (st : SystemMonitorLLM) (user_message : String) : List Message :=
  (if st.conversation_history = [] then st.conversation_history ++ [system_message]
   else st.conversation_history)
  ++ [{ role := "user", content := some user_message }]

/-- The first completion request of a `chat_async` turn (tools advertised,
`tool_choice="auto"`). -/
def firstRequest (st : SystemMonitorLLM) (user_message : String) : CompletionRequest :=
  { model := "gpt-4-turbo-preview", messages := seededHistory st user_message,
    tools := some st.available_tools }

/-- The assistant message `chat_async` appends when the model emitted tool
calls: the content plus the re-serialized call list. -/
def assistantToolMsg (r : ModelTurn) : Message :=
  { role := "assistant", content := r.content, tool_calls := r.tool_calls }

/-- The tool-response message appended for one executed call: role `tool`,
paired `tool_call_id`, the function name, and the serialized result. -/
def toolMessage (tc : ToolCallRec) (resp : String) : Message :=
  { role := "tool", content := some resp, tool_call_id := some tc.id,
    name := some tc.function_name }

/-- The sequential dispatch loop of `chat_async`: execute each call in emitted
order against `callTool` (which threads the external MCP-session state `σ` and
never raises — `_call_mcp_tool` converts failures into an error JSON string),
appending one tool-response message per call. -/
def dispatchToolCalls {σ : Type} (callTool : σ → String → String → σ × String) :
    σ → List ToolCallRec → σ × List Message
  | s, [] => (s, [])
  | s, tc :: rest =>
      let r := callTool s tc.function_name tc.function_arguments
      let next := dispatchToolCalls callTool r.1 rest
      (next.1, toolMessage tc r.2 :: next.2)

/-- Embeds `chat_async` from `src/LLMClient.py`.  `respond` models the completion
provider (a function of the request), `callTool`/`s0` the MCP tool boundary.
Returns the new client state, the assistant text, the final external state,
and the list of completion requests issued, in order. -/
def chat_async {σ : Type} (st : SystemMonitorLLM) (user_message : String)
    (respond : CompletionRequest → ModelTurn)
    (callTool : σ → String → String → σ × String) (s0 : σ) :
    SystemMonitorLLM × Option String × σ × List CompletionRequest :=
  let req1 := firstRequest st user_message
  let r1 := respond req1
  if r1.tool_calls = [] then
    let h := seededHistory st user_message ++ [{ role := "assistant", content := r1.content }]
    ({ st with conversation_history := h }, r1.content, s0, [req1])
  else
    let h3 := seededHistory st user_message ++ [assistantToolMsg r1]
    let d := dispatchToolCalls callTool s0 r1.tool_calls
    let h4 := h3 ++ d.2
    let req2 : CompletionRequest :=
      { model := "gpt-4-turbo-preview", messages := h4, tools := none }
    let r2 := respond req2
    let h5 := h4 ++ [{ role := "assistant", content := r2.content }]
    ({ st with conversation_history := h5 }, r2.content, d.1, [req1, req2])

/-- Embeds `reset_conversation` from `src/LLMClient.py`: clear the transcript. -/
def reset_conversation (st : SystemMonitorLLM) : SystemMonitorLLM :=
  { st with conversation_history := [] }

end LLMClient

/-- C1: the spec requires every invalid-path disk snapshot to degrade to a
structured error record, never an unhandled fault.  `ServerPy.get_disk_info`
honours this (second conjunct), but `FastMCPServer.get_disk_usage` has no
`try`/`except`, so the psutil exception raised for an invalid path propagates
out of the tool function unconverted (first conjunct, evaluated at the
concrete failing outcome for path `/nonexistent`). -/
theorem disk_snapshot_error_record :
    FastMCPServer.get_disk_usage "/nonexistent"
        (.error (.other "[Errno 2] No such file or directory: /nonexistent")) "t"
      = .error (.other "[Errno 2] No such file or directory: /nonexistent")
  ∧ ∀ e : PyExc, ServerPy.get_disk_info (.error e) = [("error", .s e.str)] :=
  ⟨rfl, fun _ => rfl⟩

/-- C3: `terminate_process` returns success=true with the graceful message
when the process exits within the 3-second wait; escalates to `kill` on
timeout, returning success=true with the forced-kill message when the kill
succeeds and success=false with the exception text when it fails; and returns
success=false error records for no-such-process and access-denied. -/
theorem terminate_process_contract (pid : ℤ) (nm ts : String) (k : Except PyExc Unit) :
    (FastMCPServer.terminate_process pid ⟨.ok nm, .ok (), .ok (), k⟩ ts
      = .ok [("success", .b true),
             ("message", .s s!"Process {nm} (PID: {pid}) successfully terminated"),
             ("timestamp", .s ts)])
  ∧ (FastMCPServer.terminate_process pid ⟨.ok nm, .ok (), .error .timeoutExpired, .ok ()⟩ ts
      = .ok [("success", .b true),
             ("message", .s s!"Process {pid} forcefully killed"),
             ("timestamp", .s ts)])
  ∧ (∀ e : PyExc,
      FastMCPServer.terminate_process pid ⟨.ok nm, .ok (), .error .timeoutExpired, .error e⟩ ts
        = .ok [("success", .b false), ("error", .s e.str)])
  ∧ (FastMCPServer.terminate_process pid ⟨.error .noSuchProcess, .ok (), .ok (), k⟩ ts
      = .ok [("success", .b false), ("error", .s s!"Process with PID {pid} not found")])
  ∧ (FastMCPServer.terminate_process pid ⟨.error .accessDenied, .ok (), .ok (), k⟩ ts
      = .ok [("success", .b false),
             ("error", .s s!"Access denied. Cannot terminate process {pid}")]) :=
  ⟨rfl, rfl, fun _ => rfl, rfl, rfl⟩

/-- C6: `get_process_info` on a pid that is not running (psutil raises
`NoSuchProcess`) returns a record holding only the error message — in
particular no `pid` key — and likewise on permission denial; neither exception
escapes the operation.  Both server variants agree. -/
theorem process_info_error_contract (pid : ℤ) (ts : String) :
    (FastMCPServer.get_process_info pid (.error .noSuchProcess) ts
      = .ok [("error", .s s!"Process with PID {pid} not found")])
  ∧ (FastMCPServer.get_process_info pid (.error .accessDenied) ts
      = .ok [("error", .s s!"Access denied to process {pid}")])
  ∧ ((FastMCPServer.get_process_info pid (.error .noSuchProcess) ts).map
      (fun r => r.map Prod.fst) = .ok ["error"])
  ∧ (ServerPy.get_process_info pid (.error .noSuchProcess) ts
      = .ok [("error", .s s!"Process with PID {pid} not found")])
  ∧ (ServerPy.get_process_info pid (.error .accessDenied) ts
      = .ok [("error", .s s!"Access denied to process {pid}")]) :=
  ⟨rfl, rfl, rfl, rfl, rfl⟩

/-- C10: the `terminate_process`, `suspend_process` and `resume_process`
operations of `src/FastMCPServer.py` and `src/src/server.py` are extensionally
equal: the same pid and the same outcomes of the underlying psutil calls
produce identical result records in both variants. -/
theorem process_control_variants_agree (pid : ℤ) (w : TerminateWorld)
    (w2 : SignalWorld) (ts : String) :
    FastMCPServer.terminate_process pid w ts = ServerPy.terminate_process pid w ts
  ∧ FastMCPServer.suspend_process pid w2 ts = ServerPy.suspend_process pid w2 ts
  ∧ FastMCPServer.resume_process pid w2 ts = ServerPy.resume_process pid w2 ts :=
  ⟨rfl, rfl, rfl⟩

/-- C8: constructing `SystemMonitorLLM` without an api-key argument fails with
the `ValueError` when the environment holds no key (or an empty one) — before
any client object is created — and succeeds, storing the key and an empty
transcript, when a nonempty key is supplied as an argument or found in the
environment. -/
theorem init_requires_api_key :
    (∀ (env : String → Option String) (sp : String), env "OPENAI_API_KEY" = none →
      LLMClient.SystemMonitorLLM.init none env sp = .error LLMClient.apiKeyError)
  ∧ (∀ (env : String → Option String) (sp : String), env "OPENAI_API_KEY" = some "" →
      LLMClient.SystemMonitorLLM.init none env sp = .error LLMClient.apiKeyError)
  ∧ (∀ (k : String) (env : String → Option String) (sp : String), k ≠ "" →
      LLMClient.SystemMonitorLLM.init (some k) env sp
        = .ok { api_key := k, conversation_history := [], server_path := sp,
                available_tools := [] })
  ∧ (∀ (k : String) (env : String → Option String) (sp : String), k ≠ "" →
      env "OPENAI_API_KEY" = some k →
      LLMClient.SystemMonitorLLM.init none env sp
        = .ok { api_key := k, conversation_history := [], server_path := sp,
                available_tools := [] }) := by
  refine ⟨?_, ?_, ?_, ?_⟩
  · intro env sp h
    simp [LLMClient.SystemMonitorLLM.init, pyOr, pyTruthyStr, h]
  · intro env sp h
    simp [LLMClient.SystemMonitorLLM.init, pyOr, pyTruthyStr, String.isEmpty_iff, h]
  · intro k env sp hk
    have hk2 : k.isEmpty = false := by
      rw [Bool.eq_false_iff]
      simp [String.isEmpty_iff, hk]
    simp [LLMClient.SystemMonitorLLM.init, pyOr, pyTruthyStr, hk2]
  · intro k env sp hk h
    have hk2 : k.isEmpty = false := by
      rw [Bool.eq_false_iff]
      simp [String.isEmpty_iff, hk]
    simp [LLMClient.SystemMonitorLLM.init, pyOr, pyTruthyStr, hk2, h]

/-- Witness for C8 at concrete inputs: an empty environment and no argument
fail with the `ValueError`; the key `sk-test` succeeds. -/
theorem init_requires_api_key_witness :
    ((fun _ => none : String → Option String) "OPENAI_API_KEY" = none
      ∧ LLMClient.SystemMonitorLLM.init none (fun _ => none) "FastMCPServer.py"
          = .error LLMClient.apiKeyError)
  ∧ (("sk-test" : String) ≠ ""
      ∧ LLMClient.SystemMonitorLLM.init (some "sk-test") (fun _ => none) "FastMCPServer.py"
          = .ok { api_key := "sk-test", conversation_history := [],
                  server_path := "FastMCPServer.py", available_tools := [] }) :=
  ⟨⟨rfl, init_requires_api_key.1 _ _ rfl⟩,
   ⟨by decide, init_requires_api_key.2.2.1 _ _ _ (by decide)⟩⟩

/-- C5: `reset_conversation` empties the transcript, and the next chat turn
re-seeds it: the first completion request of that turn carries exactly the
system message followed by the new user message, with no residual history. -/
theorem reset_then_chat {σ : Type} (st : LLMClient.SystemMonitorLLM) (um : String)
    (respond : LLMClient.CompletionRequest → LLMClient.ModelTurn)
    (callTool : σ → String → String → σ × String) (s0 : σ) :
    (LLMClient.reset_conversation st).conversation_history = []
  ∧ (LLMClient.firstRequest (LLMClient.reset_conversation st) um).messages
      = [LLMClient.system_message, { role := "user", content := some um }]
  ∧ (LLMClient.chat_async (LLMClient.reset_conversation st) um respond callTool s0).2.2.2.head?
      = some (LLMClient.firstRequest (LLMClient.reset_conversation st) um) := by
  refine ⟨rfl, ?_, ?_⟩
  · simp [LLMClient.firstRequest, LLMClient.seededHistory, LLMClient.reset_conversation]
  · by_cases h :
      (respond (LLMClient.firstRequest (LLMClient.reset_conversation st) um)).tool_calls = [] <;>
        simp [LLMClient.chat_async, h]

/-- The dispatch loop appends one tool-response message per call. -/
theorem dispatchToolCalls_length {σ : Type} (callTool : σ → String → String → σ × String)
    (s : σ) (tcs : List LLMClient.ToolCallRec) :
    (LLMClient.dispatchToolCalls callTool s tcs).2.length = tcs.length := by
  induction tcs generalizing s with
  | nil => rfl
  | cons tc rest ih => simp [LLMClient.dispatchToolCalls, ih]

/-- The `i`-th appended tool-response message is tagged with the `i`-th
emitted call's identifier and function name, and carries role `tool`. -/
theorem dispatchToolCalls_get {σ : Type} (callTool : σ → String → String → σ × String)
    (s : σ) (tcs : List LLMClient.ToolCallRec) (i : ℕ) (hi : i < tcs.length)
    (hm : i < (LLMClient.dispatchToolCalls callTool s tcs).2.length) :
    ((LLMClient.dispatchToolCalls callTool s tcs).2.get ⟨i, hm⟩).role = "tool"
  ∧ ((LLMClient.dispatchToolCalls callTool s tcs).2.get ⟨i, hm⟩).tool_call_id
      = some (tcs.get ⟨i, hi⟩).id
  ∧ ((LLMClient.dispatchToolCalls callTool s tcs).2.get ⟨i, hm⟩).name
      = some (tcs.get ⟨i, hi⟩).function_name := by
  induction tcs generalizing s i with
  | nil => exact absurd hi (by simp)
  | cons tc rest ih =>
      match i with
      | 0 => exact ⟨rfl, rfl, rfl⟩
      | n + 1 =>
          have hi2 : n < rest.length := by simpa using hi
          have hm2 : n <
              (LLMClient.dispatchToolCalls callTool
                (callTool s tc.function_name tc.function_arguments).1 rest).2.length := by
            rw [dispatchToolCalls_length]
            exact hi2
          exact ih _ n hi2 hm2

/-- The external (MCP-session) state is threaded through the calls from left
to right, in the order the model emitted them. -/
theorem dispatchToolCalls_fst {σ : Type} (callTool : σ → String → String → σ × String)
    (s : σ) (tcs : List LLMClient.ToolCallRec) :
    (LLMClient.dispatchToolCalls callTool s tcs).1
      = tcs.foldl (fun a tc => (callTool a tc.function_name tc.function_arguments).1) s := by
  induction tcs generalizing s with
  | nil => rfl
  | cons tc rest ih => simp [LLMClient.dispatchToolCalls, ih]

/-- C4: in a dispatch turn where the model emits a nonempty batch of tool
calls, `chat_async` issues exactly two completion requests; the second (final
synthesis) request offers no tools and its transcript is the seeded history,
the assistant tool-call message, then exactly one tool-response message per
call — produced by the sequential dispatch loop, in emitted order, each tagged
with the matching call identifier. -/
theorem chat_dispatch_pairing {σ : Type} (st : LLMClient.SystemMonitorLLM) (um : String)
    (respond : LLMClient.CompletionRequest → LLMClient.ModelTurn)
    (callTool : σ → String → String → σ × String) (s0 : σ)
    (h : (respond (LLMClient.firstRequest st um)).tool_calls ≠ []) :
    (LLMClient.chat_async st um respond callTool s0).2.2.2
      = [LLMClient.firstRequest st um,
         { model := "gpt-4-turbo-preview",
           messages := LLMClient.seededHistory st um
             ++ [LLMClient.assistantToolMsg (respond (LLMClient.firstRequest st um))]
             ++ (LLMClient.dispatchToolCalls callTool s0
                  (respond (LLMClient.firstRequest st um)).tool_calls).2,
           tools := none }]
  ∧ (LLMClient.dispatchToolCalls callTool s0
      (respond (LLMClient.firstRequest st um)).tool_calls).2.length
      = (respond (LLMClient.firstRequest st um)).tool_calls.length
  ∧ (∀ (i : ℕ) (hi : i < (respond (LLMClient.firstRequest st um)).tool_calls.length)
      (hm : i < (LLMClient.dispatchToolCalls callTool s0
              (respond (LLMClient.firstRequest st um)).tool_calls).2.length),
      ((LLMClient.dispatchToolCalls callTool s0
          (respond (LLMClient.firstRequest st um)).tool_calls).2.get ⟨i, hm⟩).role = "tool"
    ∧ ((LLMClient.dispatchToolCalls callTool s0
          (respond (LLMClient.firstRequest st um)).tool_calls).2.get ⟨i, hm⟩).tool_call_id
        = some ((respond (LLMClient.firstRequest st um)).tool_calls.get ⟨i, hi⟩).id)
  ∧ (LLMClient.chat_async st um respond callTool s0).2.2.1
      = (respond (LLMClient.firstRequest st um)).tool_calls.foldl
          (fun a tc => (callTool a tc.function_name tc.function_arguments).1) s0 := by
  refine ⟨?_, dispatchToolCalls_length _ _ _, ?_, ?_⟩
  · simp [LLMClient.chat_async, h]
  · intro i hi hm
    exact ⟨(dispatchToolCalls_get _ _ _ i hi hm).1, (dispatchToolCalls_get _ _ _ i hi hm).2.1⟩
  · simp [LLMClient.chat_async, h, dispatchToolCalls_fst]

/-- Witness for C4: a concrete turn in which the model emits two tool calls
against a logging tool executor; the final request offers no tools and pairs
both call identifiers. -/
theorem chat_dispatch_pairing_witness :
    ((fun req => if req.tools = none then
          LLMClient.ModelTurn.mk (some "done") []
        else
          LLMClient.ModelTurn.mk none
            [⟨"call_1", "get_cpu_usage", "\x7b\x7d"⟩, ⟨"call_2", "get_memory_usage", "\x7b\x7d"⟩])
        (LLMClient.firstRequest
          ⟨"k", [], "FastMCPServer.py", ["get_cpu_usage", "get_memory_usage"]⟩
          "check the system")).tool_calls ≠ []
  ∧ (LLMClient.dispatchToolCalls
      (fun (log : List (String × String)) nm args => (log ++ [(nm, args)], nm))
      []
      ((fun req => if req.tools = none then
          LLMClient.ModelTurn.mk (some "done") []
        else
          LLMClient.ModelTurn.mk none
            [⟨"call_1", "get_cpu_usage", "\x7b\x7d"⟩, ⟨"call_2", "get_memory_usage", "\x7b\x7d"⟩])
        (LLMClient.firstRequest
          ⟨"k", [], "FastMCPServer.py", ["get_cpu_usage", "get_memory_usage"]⟩
          "check the system")).tool_calls).2.length
      = ((fun req => if req.tools = none then
          LLMClient.ModelTurn.mk (some "done") []
        else
          LLMClient.ModelTurn.mk none
            [⟨"call_1", "get_cpu_usage", "\x7b\x7d"⟩, ⟨"call_2", "get_memory_usage", "\x7b\x7d"⟩])
        (LLMClient.firstRequest
          ⟨"k", [], "FastMCPServer.py", ["get_cpu_usage", "get_memory_usage"]⟩
          "check the system")).tool_calls.length :=
  ⟨by decide,
   (chat_dispatch_pairing
      ⟨"k", [], "FastMCPServer.py", ["get_cpu_usage", "get_memory_usage"]⟩
      "check the system"
      (fun req => if req.tools = none then
          LLMClient.ModelTurn.mk (some "done") []
        else
          LLMClient.ModelTurn.mk none
            [⟨"call_1", "get_cpu_usage", "\x7b\x7d"⟩, ⟨"call_2", "get_memory_usage", "\x7b\x7d"⟩])
      (fun (log : List (String × String)) nm args => (log ++ [(nm, args)], nm))
      [] (by decide)).2.1⟩

/-- Totality of `lexLe`. -/
theorem lexLe_total : ∀ (a b : List Char), lexLe a b = true ∨ lexLe b a = true
  | [], _ => Or.inl rfl
  | _ :: _, [] => Or.inr rfl
  | a :: as, b :: bs => by
      by_cases hab : a = b
      · subst hab
        rcases lexLe_total as bs with h | h
        · exact Or.inl (by simp [lexLe, h])
        · exact Or.inr (by simp [lexLe, h])
      · rcases lt_or_gt_of_ne hab with h | h
        · exact Or.inl (by simp [lexLe, hab, h])
        · exact Or.inr (by simp [lexLe, Ne.symm hab, h])

/-- Transitivity of `lexLe`. -/
theorem lexLe_trans : ∀ (a b c : List Char),
    lexLe a b = true → lexLe b c = true → lexLe a c = true
  | [], _, _, _, _ => rfl
  | _ :: _, [], _, h1, _ => absurd h1 (by simp [lexLe])
  | _ :: _, _ :: _, [], _, h2 => absurd h2 (by simp [lexLe])
  | a :: as, b :: bs, c :: cs, h1, h2 => by
      by_cases hab : a = b
      · subst hab
        by_cases hac : a = c
        · subst hac
          have h1a : lexLe as bs = true := by simpa [lexLe] using h1
          have h2a : lexLe bs cs = true := by simpa [lexLe] using h2
          simpa [lexLe] using lexLe_trans as bs cs h1a h2a
        · have h2a : a < c := by simpa [lexLe, hac] using h2
          simp [lexLe, hac, h2a]
      · have h1a : a < b := by simpa [lexLe, hab] using h1
        by_cases hbc : b = c
        · subst hbc
          simp [lexLe, hab, h1a]
        · have h2a : b < c := by simpa [lexLe, hbc] using h2
          have hac2 : a < c := lt_trans h1a h2a
          simp [lexLe, ne_of_lt hac2, hac2]

/-- A Python slice `xs[:k]` is a sublist of `xs`. -/
theorem pySliceTo_sublist {α : Type} (xs : List α) (k : ℤ) :
    (pySliceTo xs k).Sublist xs := by
  unfold pySliceTo
  split <;> exact List.take_sublist _ _

/-- Length bound of a slice with a nonnegative bound. -/
theorem pySliceTo_length_le {α : Type} (xs : List α) (k : ℤ) (hk : 0 ≤ k) :
    (pySliceTo xs k).length ≤ k.toNat := by
  simp only [pySliceTo, if_pos hk, List.length_take]
  omega

/-- Length of a slice with a negative bound: the last `|k|` elements are
dropped. -/
theorem pySliceTo_length_neg {α : Type} (xs : List α) (k : ℤ) (hk : k < 0) :
    (pySliceTo xs k).length = xs.length - k.natAbs := by
  have h : ¬ 0 ≤ k := by omega
  simp only [pySliceTo, if_neg h, List.length_take]
  omega

/-- When every enumerated process is sampled successfully, the search returns
exactly the processes whose (lowercased) name contains the (lowercased)
query. -/
theorem search_eq_filter_map (procs : List ProcSample) (q : String)
    (h : ∀ p ∈ procs, p.ok = true) :
    FastMCPServer.search_process_by_name procs q
      = (procs.filter fun p => pyInStr (pyLower q) (pyLower p.name)).map
          FastMCPServer.toSearchEntry := by
  induction procs with
  | nil => rfl
  | cons p rest ih =>
      have hp : p.ok = true := h p (by simp)
      have hr := ih fun x hx => h x (by simp [hx])
      by_cases hm : pyInStr (pyLower q) (pyLower p.name) = true
      · simpa [FastMCPServer.search_process_by_name, List.filter_cons, hm, hp] using hr
      · simpa [FastMCPServer.search_process_by_name, List.filter_cons,
          Bool.eq_false_iff.mpr hm] using hr

/-- When no enumerated process name contains the query, the search returns the
empty list (regardless of sampling outcomes), not an error record. -/
theorem search_no_match (procs : List ProcSample) (q : String)
    (h : ∀ p ∈ procs, pyInStr (pyLower q) (pyLower p.name) = false) :
    FastMCPServer.search_process_by_name procs q = [] := by
  induction procs with
  | nil => rfl
  | cons p rest ih =>
      have hp := h p (by simp)
      have hr := ih fun x hx => h x (by simp [hx])
      simpa [FastMCPServer.search_process_by_name, hp] using hr

/-- C7: `search_process_by_name` returns exactly the (successfully sampled)
processes whose name contains the query as a case-insensitive substring; with
no match it returns the empty list, never an error record.  Both server
variants agree (their bodies are identical). -/
theorem search_process_contract (procs : List ProcSample) (q : String) :
    ((∀ p ∈ procs, p.ok = true) →
      FastMCPServer.search_process_by_name procs q
        = (procs.filter fun p => pyInStr (pyLower q) (pyLower p.name)).map
            FastMCPServer.toSearchEntry)
  ∧ ((∀ p ∈ procs, pyInStr (pyLower q) (pyLower p.name) = false) →
      FastMCPServer.search_process_by_name procs q = [])
  ∧ ((∀ p ∈ procs, p.ok = true) →
      ServerPy.search_process_by_name procs q
        = (procs.filter fun p => pyInStr (pyLower q) (pyLower p.name)).map
            FastMCPServer.toSearchEntry) :=
  ⟨search_eq_filter_map procs q, search_no_match procs q, search_eq_filter_map procs q⟩

/-- Witness for C7: among `Google Chrome` and `bash`, the query `Chro` finds
exactly the Chrome process. -/
theorem search_process_contract_witness :
    (∀ p ∈ ([⟨10, "Google Chrome", 1, 2, "running", "u", true⟩,
             ⟨11, "bash", 3, 4, "running", "u", true⟩] : List ProcSample), p.ok = true)
  ∧ FastMCPServer.search_process_by_name
      [⟨10, "Google Chrome", 1, 2, "running", "u", true⟩,
       ⟨11, "bash", 3, 4, "running", "u", true⟩] "Chro"
      = (([⟨10, "Google Chrome", 1, 2, "running", "u", true⟩,
           ⟨11, "bash", 3, 4, "running", "u", true⟩] : List ProcSample).filter
          fun p => pyInStr (pyLower "Chro") (pyLower p.name)).map
          FastMCPServer.toSearchEntry :=
  ⟨by decide,
   (search_process_contract
      [⟨10, "Google Chrome", 1, 2, "running", "u", true⟩,
       ⟨11, "bash", 3, 4, "running", "u", true⟩] "Chro").1 (by decide)⟩

/-- Counterexample to C2 as stated: at a concrete two-process input with
sort key `name`, `FastMCPServer.get_top_processes` returns the list sorted
ascending by lowercase name (`bash` before `zsh`), not descending by the
requested key as the claim demands. -/
theorem top_processes_name_not_descending :
    ((FastMCPServer.get_top_processes
        [⟨1, "zsh", 1, 1, "running", "u", true⟩, ⟨2, "bash", 2, 2, "running", "u", true⟩]
        5 "name").map FastMCPServer.ProcEntry.name = ["bash", "zsh"])
  ∧ ¬ ((FastMCPServer.get_top_processes
        [⟨1, "zsh", 1, 1, "running", "u", true⟩, ⟨2, "bash", 2, 2, "running", "u", true⟩]
        5 "name").Pairwise
          (fun a b => lexLe (pyLower b.name) (pyLower a.name) = true)) := by
  have hout : FastMCPServer.get_top_processes
      [⟨1, "zsh", 1, 1, "running", "u", true⟩, ⟨2, "bash", 2, 2, "running", "u", true⟩]
      5 "name"
      = [⟨2, "bash", round2 2, round2 2, "running", "u"⟩,
         ⟨1, "zsh", round2 1, round2 1, "running", "u"⟩] := by
    simp [FastMCPServer.get_top_processes, FastMCPServer.collect, List.mergeSort,
      List.merge, pySliceTo, lexLe, pyLower, leadsWith]
  constructor
  · rw [hout]
    rfl
  · rw [hout]
    intro hp
    rw [List.pairwise_cons] at hp
    have h1 := hp.1 ⟨1, "zsh", round2 1, round2 1, "running", "u"⟩ (by simp)
    exact absurd h1 (by decide)

/-- C2 amended: for every limit `L ≥ 0` the returned list has length at most
`L`; the keys `cpu` and `memory` sort descending by that key (ties broken by
enumeration order — `mergeSort`, like Python `list.sort`, is stable); the key
`name` sorts ascending by lowercase name in `FastMCPServer.py`; any other key
falls back to enumeration order in `FastMCPServer.py`, while
`src/src/server.py` sorts by cpu descending for every key other than
`memory` (including `name`). -/
theorem top_processes_sorted (procs : List ProcSample) (rprocs : List ServerPy.RawProc)
    (L : ℤ) (hL : 0 ≤ L) (k : String) :
    (FastMCPServer.get_top_processes procs L k).length ≤ L.toNat
  ∧ (FastMCPServer.get_top_processes procs L "cpu").Pairwise
      (fun a b => b.cpu_percent ≤ a.cpu_percent)
  ∧ (FastMCPServer.get_top_processes procs L "memory").Pairwise
      (fun a b => b.memory_percent ≤ a.memory_percent)
  ∧ (FastMCPServer.get_top_processes procs L "name").Pairwise
      (fun a b => lexLe (pyLower a.name) (pyLower b.name) = true)
  ∧ (k ≠ "cpu" → k ≠ "memory" → k ≠ "name" →
      FastMCPServer.get_top_processes procs L k
        = (FastMCPServer.collect procs).take L.toNat)
  ∧ (ServerPy.get_top_processes rprocs L "memory").top_processes.Pairwise
      (fun a b => b.memory_percent ≤ a.memory_percent)
  ∧ (k ≠ "memory" →
      (ServerPy.get_top_processes rprocs L k).top_processes.Pairwise
        (fun a b => b.cpu_percent ≤ a.cpu_percent))
  ∧ (ServerPy.get_top_processes rprocs L k).top_processes.length ≤ L.toNat := by
  refine ⟨?_, ?_, ?_, ?_, ?_, ?_, ?_, ?_⟩
  · simp only [FastMCPServer.get_top_processes]
    split_ifs <;> exact pySliceTo_length_le _ _ hL
  · simp only [FastMCPServer.get_top_processes, if_pos rfl]
    refine List.Pairwise.sublist (pySliceTo_sublist _ _) ?_
    refine (List.sorted_mergeSort ?_ ?_ _).imp (fun h => of_decide_eq_true h)
    · intro a b c h1 h2
      simp only [decide_eq_true_eq] at h1 h2 ⊢
      exact le_trans h2 h1
    · intro a b
      simp only [Bool.or_eq_true, decide_eq_true_eq]
      exact le_total b.cpu_percent a.cpu_percent
  · have hne : ("memory" : String) ≠ "cpu" := by decide
    simp only [FastMCPServer.get_top_processes, if_neg hne, if_pos rfl]
    refine List.Pairwise.sublist (pySliceTo_sublist _ _) ?_
    refine (List.sorted_mergeSort ?_ ?_ _).imp (fun h => of_decide_eq_true h)
    · intro a b c h1 h2
      simp only [decide_eq_true_eq] at h1 h2 ⊢
      exact le_trans h2 h1
    · intro a b
      simp only [Bool.or_eq_true, decide_eq_true_eq]
      exact le_total b.memory_percent a.memory_percent
  · have hne1 : ("name" : String) ≠ "cpu" := by decide
    have hne2 : ("name" : String) ≠ "memory" := by decide
    simp only [FastMCPServer.get_top_processes, if_neg hne1, if_neg hne2,
      eq_self_iff_true, if_true]
    refine List.Pairwise.sublist (pySliceTo_sublist _ _) ?_
    exact @List.sorted_mergeSort FastMCPServer.ProcEntry
      (fun a b => lexLe (pyLower a.name) (pyLower b.name))
      (fun a b c h1 h2 => lexLe_trans _ _ _ h1 h2)
      (fun a b => by
        rcases lexLe_total (pyLower a.name) (pyLower b.name) with h | h <;> simp [h])
      (FastMCPServer.collect procs)
  · intro h1 h2 h3
    simp only [FastMCPServer.get_top_processes, if_neg h1, if_neg h2, if_neg h3,
      pySliceTo, if_pos hL]
  · simp only [ServerPy.get_top_processes, if_pos rfl]
    refine List.Pairwise.sublist (pySliceTo_sublist _ _) ?_
    refine (List.sorted_mergeSort ?_ ?_ _).imp (fun h => of_decide_eq_true h)
    · intro a b c h1 h2
      simp only [decide_eq_true_eq] at h1 h2 ⊢
      exact le_trans h2 h1
    · intro a b
      simp only [Bool.or_eq_true, decide_eq_true_eq]
      exact le_total b.memory_percent a.memory_percent
  · intro hk
    simp only [ServerPy.get_top_processes, if_neg hk]
    refine List.Pairwise.sublist (pySliceTo_sublist _ _) ?_
    refine (List.sorted_mergeSort ?_ ?_ _).imp (fun h => of_decide_eq_true h)
    · intro a b c h1 h2
      simp only [decide_eq_true_eq] at h1 h2 ⊢
      exact le_trans h2 h1
    · intro a b
      simp only [Bool.or_eq_true, decide_eq_true_eq]
      exact le_total b.cpu_percent a.cpu_percent
  · simp only [ServerPy.get_top_processes]
    split_ifs <;> exact pySliceTo_length_le _ _ hL

/-- Witness for C2 (amended) at a concrete input and limit 5. -/
theorem top_processes_sorted_witness :
    (0 : ℤ) ≤ 5
  ∧ (FastMCPServer.get_top_processes
      [⟨1, "zsh", 1, 1, "running", "u", true⟩, ⟨2, "bash", 2, 2, "running", "u", true⟩]
      5 "cpu").length ≤ (5 : ℤ).toNat :=
  ⟨by decide,
   (top_processes_sorted
      [⟨1, "zsh", 1, 1, "running", "u", true⟩, ⟨2, "bash", 2, 2, "running", "u", true⟩]
      [] 5 (by decide) "cpu").1⟩

/-- C9: for a negative limit `L < 0`, the Python slice `processes[:limit]`
drops the last `|L|` entries, so both variants return a list of length
`max(0, n - |L|)` where `n` is the number of collected processes — not an
empty list and not an error record. -/
theorem top_processes_negative_limit (procs : List ProcSample)
    (rprocs : List ServerPy.RawProc) (L : ℤ) (hL : L < 0) (k : String) :
    (FastMCPServer.get_top_processes procs L k).length
      = (FastMCPServer.collect procs).length - L.natAbs
  ∧ (ServerPy.get_top_processes rprocs L k).top_processes.length
      = (ServerPy.collect rprocs).length - L.natAbs := by
  constructor
  · simp only [FastMCPServer.get_top_processes]
    split_ifs <;> rw [pySliceTo_length_neg _ _ hL] <;> simp
  · simp only [ServerPy.get_top_processes]
    split_ifs <;> rw [pySliceTo_length_neg _ _ hL] <;> simp

/-- Witness for C9: three collected processes and limit −1 yield a list of
length 3 − 1 = 2, which exceeds |−1|. -/
theorem top_processes_negative_limit_witness :
    (-1 : ℤ) < 0
  ∧ (FastMCPServer.get_top_processes
      [⟨1, "a", 1, 1, "r", "u", true⟩, ⟨2, "b", 2, 2, "r", "u", true⟩,
       ⟨3, "c", 3, 3, "r", "u", true⟩] (-1) "cpu").length
      = (FastMCPServer.collect
          [⟨1, "a", 1, 1, "r", "u", true⟩, ⟨2, "b", 2, 2, "r", "u", true⟩,
           ⟨3, "c", 3, 3, "r", "u", true⟩]).length - (-1 : ℤ).natAbs :=
  ⟨by decide,
   (top_processes_negative_limit
      [⟨1, "a", 1, 1, "r", "u", true⟩, ⟨2, "b", 2, 2, "r", "u", true⟩,
       ⟨3, "c", 3, 3, "r", "u", true⟩] [] (-1) (by decide) "cpu").1⟩
